import Mathlib

/- Formal model of the EstateIQ backend (src/index.js): the tenant
ledger, payment recording and deletion, receipt numbering, CSV import,
request validation, and login responses.  The DECIMAL(15,2) monetary
columns are modelled as rationals.  JavaScript request-body values that
the handlers subject to truthiness checks are modelled by `JVal`; an
absent body field is `Option.none` at the use site. -/

namespace EstateIQ

/- A JSON body value as the JavaScript handlers see it: a number, a
string, or null. -/
inductive JVal where
  | num (q : ℚ)
  | str (s : String)
  | null
  deriving Repr, DecidableEq

/- JavaScript truthiness for a body value: the number 0, the empty
string and null are falsy, everything else is truthy. -/
def JVal.truthy : JVal → Bool
  | .num q => q != 0
  | .str s => s != ""
  | .null  => false

/- Truthiness of a possibly absent body value (`undefined` is falsy). -/
def optTruthy : Option JVal → Bool
  | some v => v.truthy
  | none   => false

/- Truthiness of a possibly absent string-valued body field. -/
def strTruthy : Option String → Bool
  | some s => s != ""
  | none   => false

/- The JavaScript pattern `s || d` on a string-valued field: an absent
or empty string is replaced by the default `d`. -/
def strOr (v : Option String) (d : String) : String :=
  match v with
  | some s => if s != "" then s else d
  | none   => d

/- Digits of a decimal numeral folded into a natural number. -/
def digitsToNat (cs : List Char) : ℕ :=
  cs.foldl (fun n c => n * 10 + (c.toNat - 48)) 0

/- JavaScript parseFloat restricted to what the import path feeds it:
a leading run of digits, optionally followed by a decimal point and
more digits; `none` models NaN (no leading digit in either part). -/
def parseFloatQ (s : String) : Option ℚ :=
  let cs := s.data
  let ip := cs.takeWhile Char.isDigit
  let rest := cs.dropWhile Char.isDigit
  match rest with
  | '.' :: r2 =>
      let fp := r2.takeWhile Char.isDigit
      if ip.isEmpty && fp.isEmpty then none
      else some ((digitsToNat ip : ℚ) + (digitsToNat fp : ℚ) / ((10 : ℚ) ^ fp.length))
  | _ => if ip.isEmpty then none else some ((digitsToNat ip : ℚ))

/- MySQL's coercion of a non-empty string bound for a DECIMAL column:
an optional leading sign followed by the leading numeric prefix, 0
when the string has no numeric prefix.  The sign is preserved, so a
caller-supplied "-5" is stored as -5. -/
def mysqlDecOfString (s : String) : ℚ :=
  match s.data with
  | '-' :: rest => -((parseFloatQ (String.mk rest)).getD 0)
  | '+' :: rest => (parseFloatQ (String.mk rest)).getD 0
  | _ => (parseFloatQ s).getD 0

/- The JavaScript pattern `x || 0` on a body value bound for a DECIMAL
column: a falsy value (absent, 0, "", null) stores 0; a number stores
itself; a non-empty string is coerced by MySQL, sign included. -/
def jvalOrZero : Option JVal → ℚ
  | some (.num q) => q
  | some (.str s) => if s != "" then mysqlDecOfString s else 0
  | some .null    => 0
  | none          => 0

/- A row of the `tenants` table (columns the handlers read or write;
`sn`, `property_id` and the timestamps carry no handler logic). -/
structure Tenant where
  id : String
  tenant_name : String
  accommodation_type : String := ""
  property_address : String := ""
  period : String := ""
  lease_start : Option String := none
  lease_end : Option String := none
  rent_per_annum : ℚ := 0
  amount_paid : ℚ := 0
  phone : String := ""
  email : String := ""
  whatsapp : String := ""
  notes : String := ""
  quit_notice : Bool := false
  quit_notice_date : Option String := none
  created_by : String := ""
  deriving Repr, DecidableEq

/- A row of the `payments` table. -/
structure Payment where
  id : String
  tenant_id : String
  amount : ℚ
  payment_date : String
  payment_method : String
  reference : String := ""
  notes : String := ""
  receipt_number : String
  recorded_by : String
  deriving Repr, DecidableEq

/- The relational state the financial claims range over.  `payments`
is kept most-recently-created first, so `payments.head?` is the row
`ORDER BY created_at DESC LIMIT 1` returns. -/
structure DB where
  tenants : List Tenant
  payments : List Payment
  deriving Repr, DecidableEq

/- WHERE clause of GET /api/tenants for status=paid:
`amount_paid >= rent_per_annum AND rent_per_annum > 0`. -/
def isPaidFilter (t : Tenant) : Bool :=
  decide (t.amount_paid ≥ t.rent_per_annum) && decide (t.rent_per_annum > 0)

/- WHERE clause for status=partial:
`amount_paid > 0 AND amount_paid < rent_per_annum`. -/
def isPartlyPaidFilter (t : Tenant) : Bool :=
  decide (t.amount_paid > 0) && decide (t.amount_paid < t.rent_per_annum)

/- WHERE clause for status=unpaid: `amount_paid = 0`. -/
def isUnpaidFilter (t : Tenant) : Bool :=
  decide (t.amount_paid = 0)

/- The status filter of GET /api/tenants.  The free-text search
conjunct and the status=expiring branch (a CURDATE()-based 30-day
window over `lease_end`) are orthogonal to every claim and are not
modelled; an unrecognised status adds no WHERE clause. -/
def tenantsFilter (ts : List Tenant) (status : String) : List Tenant :=
  if status = "paid" then ts.filter isPaidFilter
  else if status = "partial" then ts.filter isPartlyPaidFilter
  else if status = "unpaid" then ts.filter isUnpaidFilter
  else if status = "quit" then ts.filter (fun t => t.quit_notice)
  else ts

/- GET /api/stats counter `fully_paid`:
`SUM(amount_paid >= rent_per_annum AND rent_per_annum > 0)`. -/
def statsFullyPaid (ts : List Tenant) : ℕ :=
  (ts.filter (fun t =>
    decide (t.amount_paid ≥ t.rent_per_annum) && decide (t.rent_per_annum > 0))).length

/- GET /api/stats counter `partial_paid`:
`SUM(amount_paid > 0 AND amount_paid < rent_per_annum)`. -/
def statsPartlyPaid (ts : List Tenant) : ℕ :=
  (ts.filter (fun t =>
    decide (t.amount_paid > 0) && decide (t.amount_paid < t.rent_per_annum))).length

/- GET /api/stats counter `unpaid_count`: `SUM(amount_paid = 0)`. -/
def statsUnpaidCount (ts : List Tenant) : ℕ :=
  (ts.filter (fun t => decide (t.amount_paid = 0))).length

/- Last `-`-separated segment of a receipt number, as in
`receipt_number.split("-").pop()`: the suffix after the final dash
(the whole string when it has no dash). -/
def lastDashSeg (s : String) : String :=
  String.mk ((s.data.reverse.takeWhile (fun c => !(c == '-'))).reverse)

/- JavaScript `parseInt` on the strings this code feeds it: the value
of the leading digit run, `none` for NaN. -/
def parseIntNat (s : String) : Option ℕ :=
  let ds := s.data.takeWhile Char.isDigit
  if ds.isEmpty then none else some (digitsToNat ds)

/- `String(n).padStart(4, "0")`; `none` prints as the string "NaN"
(NaN propagated through `+ 1` and `String(...)`). -/
def padStart4 (v : Option ℕ) : String :=
  let s := match v with
    | some n => toString n
    | none => "NaN"
  if 4 ≤ s.length then s else String.mk (List.replicate (4 - s.length) '0') ++ s

/- Sequence number for the next receipt, from POST /api/payments: the
most recently created payment's receipt suffix plus one, or 1 when
there is no prior payment or its receipt_number is falsy. -/
def nextReceiptNum (payments : List Payment) : Option ℕ :=
  match payments.head? with
  | none => some 1
  | some p =>
      if p.receipt_number != "" then
        (parseIntNat (lastDashSeg p.receipt_number)).map (· + 1)
      else some 1

/- The generated receipt string
`RCP-${year}-${String(lastNum).padStart(4, "0")}`. -/
def mkReceipt (year : ℕ) (payments : List Payment) : String :=
  "RCP-" ++ toString year ++ "-" ++ padStart4 (nextReceiptNum payments)

/- Body of POST /api/payments. -/
structure PaymentBody where
  tenant_id : Option String := none
  amount : Option JVal := none
  payment_date : Option String := none
  payment_method : Option String := none
  reference : Option String := none
  notes : Option String := none
  deriving Repr, DecidableEq

/- The validation gate `if (!tenant_id || !amount) return 400`. -/
def validatePayment (b : PaymentBody) : Bool :=
  strTruthy b.tenant_id && optTruthy b.amount

/- POST /api/payments: validation, receipt generation, payment insert
(prepended, since the list is newest-first), then
`UPDATE tenants SET amount_paid = amount_paid + ? WHERE id = ?`.
`none` is the 400 validation rejection.  The inserted amount reuses
`jvalOrZero`; validation has already excluded every falsy value, on
which alone it differs from a raw coercion.  (The tenant_id foreign
key is not modelled; claims about recording quantify over states
where the tenant exists.) -/
def postPayment (db : DB) (pid : String) (b : PaymentBody)
    (today recorder : String) (year : ℕ) : Option DB :=
  if validatePayment b then
    let tid := b.tenant_id.getD ""
    let a := jvalOrZero b.amount
    some { tenants := db.tenants.map (fun t =>
             if t.id = tid then { t with amount_paid := t.amount_paid + a } else t),
           payments := { id := pid, tenant_id := tid, amount := a,
                         payment_date := strOr b.payment_date today,
                         payment_method := strOr b.payment_method "cash",
                         reference := strOr b.reference "",
                         notes := strOr b.notes "",
                         receipt_number := mkReceipt year db.payments,
                         recorded_by := recorder } :: db.payments }
  else none

/- DELETE /api/payments/:id: look the payment up; on a miss answer 404
(`false`) leaving the state untouched; on a hit run
`UPDATE tenants SET amount_paid = GREATEST(0, amount_paid - ?)` for the
owning tenant and then `DELETE FROM payments WHERE id = ?`. -/
def deletePaymentRun (db : DB) (pid : String) : DB × Bool :=
  match db.payments.find? (fun p => p.id == pid) with
  | none => (db, false)
  | some p =>
      ({ tenants := db.tenants.map (fun t =>
           if t.id = p.tenant_id then
             { t with amount_paid := max 0 (t.amount_paid - p.amount) }
           else t),
         payments := db.payments.filter (fun q => !(q.id == pid)) }, true)

/- PATCH /api/tenants/:id/payment:
`UPDATE tenants SET amount_paid = ? WHERE id = ?` with `amount_paid || 0`. -/
def patchTenantPayment (ts : List Tenant) (tid : String) (v : Option JVal) :
    List Tenant :=
  ts.map (fun t => if t.id = tid then { t with amount_paid := jvalOrZero v } else t)

/- PATCH /api/tenants/:id/quit:
`UPDATE tenants SET quit_notice = ?, quit_notice_date = ?` where the
date is today's date when the requested flag is truthy and null
otherwise, regardless of the tenant's previous state. -/
def patchQuitNotice (ts : List Tenant) (tid : String) (quit : Bool)
    (today : String) : List Tenant :=
  ts.map (fun t =>
    if t.id = tid then
      { t with quit_notice := quit,
               quit_notice_date := if quit then some today else none }
    else t)

/- JavaScript `toLowerCase`, written as a character-wise map. -/
def toLowerStr (s : String) : String :=
  String.mk (s.data.map Char.toLower)

/- Header normalisation of the CSV import:
`rk.toLowerCase().replace(/[\s_]/g, "")`. -/
def normHeader (s : String) : String :=
  String.mk ((toLowerStr s).data.filter (fun c =>
    !(c == ' ' || c == '\t' || c == '\n' || c == '\r' || c == '_')))

/- `Object.keys(row).find(rk => norm(rk) === norm(k))`, then the cell:
first matching header of the row, in row order. -/
def rowLookup (row : List (String × String)) (k : String) : Option String :=
  (row.find? (fun kv => normHeader kv.1 == normHeader k)).map (fun kv => kv.2)

/- The import's header resolver `g`: try each synonym in order and
return the first matched cell whose value is truthy (non-empty); ""
when none is. -/
def resolveField (row : List (String × String)) : List String → String
  | [] => ""
  | k :: ks =>
      match rowLookup row k with
      | some v => if v != "" then v else resolveField row ks
      | none => resolveField row ks

/- A numeric CSV cell:
`parseFloat(cell.replace(/[^0-9.]/g, "")) || 0`. -/
def keepDigitsDot (s : String) : String :=
  String.mk (s.data.filter (fun c => c.isDigit || c == '.'))

def numField (s : String) : ℚ :=
  match parseFloatQ (keepDigitsDot s) with
  | some q => q
  | none => 0

/- One CSV row of POST /api/tenants/import: `none` when the name does
not resolve (the row is skipped with `continue`), otherwise the
inserted tenant (the INSERT omits lease dates and whatsapp). -/
def importRow (row : List (String × String)) (id recorder : String) :
    Option Tenant :=
  let name := resolveField row ["nameoftenant", "tenant", "name"]
  if name = "" then none
  else some
    { id := id,
      tenant_name := name,
      accommodation_type := resolveField row ["typeofaccommodation", "type", "accommodation"],
      property_address := resolveField row ["property", "address", "block"],
      period := resolveField row ["period"],
      lease_start := none,
      lease_end := none,
      rent_per_annum := numField (resolveField row ["rentperannum", "rent"]),
      amount_paid := numField (resolveField row ["amountpaid", "paid"]),
      phone := resolveField row ["phone", "mobile"],
      email := resolveField row ["email"],
      whatsapp := "",
      notes := resolveField row ["notes", "remarks"],
      quit_notice := toLowerStr (resolveField row ["quitnotice", "quit"]) == "yes",
      quit_notice_date := none,
      created_by := recorder }

/- The import loop over all parsed rows: skipped rows do not abort the
batch (ids are supplied per position). -/
def importRows (rows : List (List (String × String))) (ids : List String)
    (recorder : String) : List Tenant :=
  (rows.zip ids).filterMap (fun ri => importRow ri.1 ri.2 recorder)

/- A row of the `users` table (the columns login reads). -/
structure User where
  id : String
  name : String
  email : String
  phone : String := ""
  password_hash : String
  role : String := "staff"
  is_active : Bool := true
  deriving Repr, DecidableEq

/- An observable login response: HTTP status, the error string if any,
and the authenticated user id on success. -/
structure LoginResp where
  status : ℕ
  error : Option String
  userId : Option String
  deriving Repr, DecidableEq

/- POST /api/auth/login.  `checkPw password hash` models
`bcrypt.compare`; the SELECT keeps only rows with the given email that
are active, and `[[user]]` takes the first. -/
def login (users : List User) (checkPw : String → String → Bool)
    (email password : String) : LoginResp :=
  if email = "" || password = "" then
    { status := 400, error := some "Email and password required", userId := none }
  else
    match users.find? (fun u => u.email == email && u.is_active) with
    | none => { status := 401, error := some "Invalid credentials", userId := none }
    | some u =>
        if checkPw password u.password_hash then
          { status := 200, error := none, userId := some u.id }
        else
          { status := 401, error := some "Invalid credentials", userId := none }

/-- C1: the payment status used by the tenant-list filter and the
dashboard counters is a pure function of (amount_paid, rent_per_annum):
paid iff rent_per_annum > 0 and amount_paid ≥ rent_per_annum, partial
iff 0 < amount_paid < rent_per_annum, unpaid iff amount_paid = 0; a
tenant with rent_per_annum = 0 is never paid; the list filter and the
stats counters agree on these predicates. -/
theorem c1_derived_status :
    (∀ t : Tenant, isPaidFilter t = true ↔
      (t.rent_per_annum > 0 ∧ t.amount_paid ≥ t.rent_per_annum)) ∧
    (∀ t : Tenant, isPartlyPaidFilter t = true ↔
      (0 < t.amount_paid ∧ t.amount_paid < t.rent_per_annum)) ∧
    (∀ t : Tenant, isUnpaidFilter t = true ↔ t.amount_paid = 0) ∧
    (∀ t : Tenant, t.rent_per_annum = 0 → isPaidFilter t = false) ∧
    (∀ t u : Tenant, t.amount_paid = u.amount_paid →
      t.rent_per_annum = u.rent_per_annum →
      isPaidFilter t = isPaidFilter u ∧
      isPartlyPaidFilter t = isPartlyPaidFilter u ∧
      isUnpaidFilter t = isUnpaidFilter u) ∧
    (∀ ts : List Tenant,
      statsFullyPaid ts = (ts.filter isPaidFilter).length ∧
      statsPartlyPaid ts = (ts.filter isPartlyPaidFilter).length ∧
      statsUnpaidCount ts = (ts.filter isUnpaidFilter).length) ∧
    (∀ (ts : List Tenant) (t : Tenant),
      (t ∈ tenantsFilter ts "paid" ↔ t ∈ ts ∧ isPaidFilter t = true) ∧
      (t ∈ tenantsFilter ts "partial" ↔ t ∈ ts ∧ isPartlyPaidFilter t = true) ∧
      (t ∈ tenantsFilter ts "unpaid" ↔ t ∈ ts ∧ isUnpaidFilter t = true)) := by
  refine ⟨?_, ?_, ?_, ?_, ?_, ?_, ?_⟩
  · intro t
    simp [isPaidFilter, and_comm]
  · intro t
    simp [isPartlyPaidFilter]
  · intro t
    simp [isUnpaidFilter]
  · intro t h
    simp [isPaidFilter, h]
  · intro t u ha hr
    simp [isPaidFilter, isPartlyPaidFilter, isUnpaidFilter, ha, hr]
  · intro ts
    refine ⟨rfl, rfl, rfl⟩
  · intro ts t
    refine ⟨?_, ?_, ?_⟩ <;> simp [tenantsFilter, List.mem_filter]

/-- Witness for C1 at a concrete tenant: rent 200000, amount paid
200000 is counted as paid, and the purity clause at equal pairs. -/
theorem c1_derived_status_witness :
    isPaidFilter { id := "t1", tenant_name := "A", rent_per_annum := 200000,
                   amount_paid := 200000 } = true := by
  have h := c1_derived_status.1
    { id := "t1", tenant_name := "A", rent_per_annum := 200000, amount_paid := 200000 }
  exact h.mpr (by norm_num)

/-- C2: a record-payment request for an existing tenant with a positive
amount that passes validation prepends exactly one payment row carrying
the tenant id, amount, receipt number and recorder, adds exactly the
amount to that tenant's amount_paid, and leaves every other tenant
unchanged. -/
theorem c2_record_payment (db : DB) (pid : String) (b : PaymentBody)
    (today recorder : String) (year : ℕ) (tid : String) (a : ℚ) (db' : DB)
    (htid : b.tenant_id = some tid) (hamt : b.amount = some (.num a))
    (hpos : 0 < a) (hex : ∃ t ∈ db.tenants, t.id = tid)
    (hrun : postPayment db pid b today recorder year = some db') :
    db'.payments = { id := pid, tenant_id := tid, amount := a,
                     payment_date := strOr b.payment_date today,
                     payment_method := strOr b.payment_method "cash",
                     reference := strOr b.reference "",
                     notes := strOr b.notes "",
                     receipt_number := mkReceipt year db.payments,
                     recorded_by := recorder } :: db.payments ∧
    db'.payments.length = db.payments.length + 1 ∧
    db'.tenants.length = db.tenants.length ∧
    (∀ t ∈ db.tenants, t.id = tid →
      { t with amount_paid := t.amount_paid + a } ∈ db'.tenants) ∧
    (∀ t ∈ db.tenants, t.id ≠ tid → t ∈ db'.tenants) := by
  have hv : validatePayment b = true := by
    by_contra hv
    rw [Bool.not_eq_true] at hv
    simp [postPayment, hv] at hrun
  have hgetD : b.tenant_id.getD "" = tid := by simp [htid]
  have hjz : jvalOrZero b.amount = a := by simp [hamt, jvalOrZero]
  simp only [postPayment, hv, if_true, Option.some.injEq] at hrun
  subst hrun
  refine ⟨by simp [hgetD, hjz], by simp, by simp, ?_, ?_⟩
  · intro t ht hid
    simp only [List.mem_map]
    exact ⟨t, ht, by simp [hgetD, hid, hjz]⟩
  · intro t ht hid
    simp only [List.mem_map]
    exact ⟨t, ht, by simp [hgetD, hid]⟩

/-- Witness for C2: recording a payment of 50000 for tenant t1 on a
one-tenant, no-payment database. -/
theorem c2_record_payment_witness :
    ({ id := "t1", tenant_name := "T", rent_per_annum := 200000,
       amount_paid := 100 + 50000 } : Tenant) ∈
      ((postPayment
        { tenants := [{ id := "t1", tenant_name := "T", rent_per_annum := 200000,
                        amount_paid := 100 }],
          payments := [{ id := "p0", tenant_id := "t1", amount := 100,
                         payment_date := "2026-01-01", payment_method := "cash",
                         receipt_number := "RCP-2026-0001",
                         recorded_by := "u1" }] }
        "p1" { tenant_id := some "t1", amount := some (.num 50000) }
        "2026-10-11" "u1" 2026).getD { tenants := [], payments := [] }).tenants := by
  have h := c2_record_payment
    { tenants := [{ id := "t1", tenant_name := "T", rent_per_annum := 200000,
                    amount_paid := 100 }],
      payments := [{ id := "p0", tenant_id := "t1", amount := 100,
                     payment_date := "2026-01-01", payment_method := "cash",
                     receipt_number := "RCP-2026-0001", recorded_by := "u1" }] }
    "p1" { tenant_id := some "t1", amount := some (.num 50000) }
    "2026-10-11" "u1" 2026 "t1" 50000 _
    rfl rfl (by norm_num)
    ⟨{ id := "t1", tenant_name := "T", rent_per_annum := 200000,
       amount_paid := 100 }, by simp, rfl⟩ rfl
  exact h.2.2.2.1
    { id := "t1", tenant_name := "T", rent_per_annum := 200000,
      amount_paid := 100 } (by simp) rfl

/-- C3: the receipt number of a recorded payment has the form
RCP-year-paddedSequence, where the sequence is the numeric suffix of
the most recently created payment's receipt number plus one — read
system-wide from the latest payment only, regardless of tenant and of
the year embedded in that receipt — and is 1 when no prior payment
exists; the year prefix changes with the clock year while the sequence
part does not depend on it. -/
theorem c3_receipt_number (db : DB) (pid : String) (b : PaymentBody)
    (today recorder : String) (year : ℕ) (db' : DB)
    (hrun : postPayment db pid b today recorder year = some db') :
    db'.payments.head?.map Payment.receipt_number =
      some (mkReceipt year db.payments) ∧
    (db.payments = [] →
      mkReceipt year db.payments =
        "RCP-" ++ toString year ++ "-" ++ padStart4 (some 1)) ∧
    padStart4 (some 1) = "0001" ∧
    (∀ p rest n, db.payments = p :: rest → p.receipt_number ≠ "" →
      parseIntNat (lastDashSeg p.receipt_number) = some n →
      mkReceipt year db.payments =
        "RCP-" ++ toString year ++ "-" ++ padStart4 (some (n + 1))) ∧
    (∀ p q rest rest', p.receipt_number = q.receipt_number →
      mkReceipt year (p :: rest) = mkReceipt year (q :: rest')) ∧
    (∀ y₁ y₂ : ℕ, ∃ s : String,
      mkReceipt y₁ db.payments = "RCP-" ++ toString y₁ ++ "-" ++ s ∧
      mkReceipt y₂ db.payments = "RCP-" ++ toString y₂ ++ "-" ++ s) := by
  have hv : validatePayment b = true := by
    by_contra hv
    rw [Bool.not_eq_true] at hv
    simp [postPayment, hv] at hrun
  simp only [postPayment, hv, if_true, Option.some.injEq] at hrun
  subst hrun
  refine ⟨by simp, ?_, by decide, ?_, ?_, ?_⟩
  · intro h
    simp [mkReceipt, nextReceiptNum, h]
  · intro p rest n hps hne hparse
    simp [mkReceipt, nextReceiptNum, hps, hne, hparse]
  · intro p q rest rest' hr
    simp [mkReceipt, nextReceiptNum, hr]
  · intro y₁ y₂
    exact ⟨padStart4 (nextReceiptNum db.payments), rfl, rfl⟩

/-- Witness for C3: recording a payment after a payment whose receipt
is RCP-2025-0042 under clock year 2026 yields RCP-2026-0043; with no
prior payment the receipt is RCP-2026-0001. -/
theorem c3_receipt_number_witness :
    mkReceipt 2026 [{ id := "p0", tenant_id := "t9", amount := 5,
                      payment_date := "2025-12-31", payment_method := "cash",
                      receipt_number := "RCP-2025-0042",
                      recorded_by := "u1" }] = "RCP-2026-0043" ∧
    mkReceipt 2026 [] = "RCP-2026-0001" := by
  have h := c3_receipt_number
    { tenants := [],
      payments := [{ id := "p0", tenant_id := "t9", amount := 5,
                     payment_date := "2025-12-31", payment_method := "cash",
                     receipt_number := "RCP-2025-0042", recorded_by := "u1" }] }
    "p1" { tenant_id := some "t1", amount := some (.num 7) }
    "2026-10-11" "u1" 2026 _ rfl
  have h2 := c3_receipt_number
    { tenants := [], payments := [] }
    "p1" { tenant_id := some "t1", amount := some (.num 7) }
    "2026-10-11" "u1" 2026 _ rfl
  constructor
  · have := h.2.2.2.1 _ [] 42 rfl (by decide) (by decide)
    rw [this]
    decide
  · have := h2.2.1 rfl
    rw [this]
    decide

/- Removing every row whose key equals a member's key from a list
whose keys are pairwise distinct removes exactly that member. -/
theorem filter_out_unique_key {α : Type} [DecidableEq α] (f : α → String)
    (v : String) :
    ∀ (l : List α) (x : α), (l.map f).Nodup → x ∈ l → f x = v →
      ((l.filter (fun q => !(f q == v))).length + 1 = l.length ∧
       x ∉ l.filter (fun q => !(f q == v)) ∧
       ∀ q ∈ l, q ≠ x → q ∈ l.filter (fun q => !(f q == v))) := by
  intro l
  induction l with
  | nil =>
      intro x _ hx _
      simp at hx
  | cons a l ih =>
      intro x hnd hx hfx
      rw [List.map_cons, List.nodup_cons] at hnd
      obtain ⟨ha, hnd'⟩ := hnd
      rw [List.mem_cons] at hx
      rcases hx with rfl | hx
      · have hkeep : ∀ q ∈ l, (!(f q == v)) = true := by
          intro q hq
          have : f q ≠ v := by
            intro hqv
            exact ha (hfx ▸ hqv ▸ List.mem_map_of_mem f hq)
          simp [this]
        have hfil : l.filter (fun q => !(f q == v)) = l :=
          List.filter_eq_self.mpr hkeep
        have hdrop : (x :: l).filter (fun q => !(f q == v)) = l := by
          rw [List.filter_cons]
          simp [hfx, hfil]
        refine ⟨by rw [hdrop]; simp, ?_, ?_⟩
        · rw [hdrop]
          intro hmem
          exact ha (hfx ▸ List.mem_map_of_mem f hmem)
        · intro q hq hqa
          rw [hdrop]
          rcases List.mem_cons.mp hq with rfl | hq'
          · exact absurd rfl hqa
          · exact hq'
      · have hav : f a ≠ v := by
          intro hv
          exact ha (hv ▸ hfx ▸ List.mem_map_of_mem f hx)
        have hcons : (a :: l).filter (fun q => !(f q == v)) =
            a :: l.filter (fun q => !(f q == v)) := by
          rw [List.filter_cons]
          simp [hav]
        obtain ⟨hlen, hnotin, hkeep⟩ := ih x hnd' hx hfx
        refine ⟨by rw [hcons]; simp [← hlen], ?_, ?_⟩
        · rw [hcons]
          intro hmem
          rcases List.mem_cons.mp hmem with rfl | hmem'
          · exact hav hfx
          · exact hnotin hmem'
        · intro q hq hqx
          rw [hcons]
          rcases List.mem_cons.mp hq with rfl | hq'
          · exact List.mem_cons_self _ _
          · exact List.mem_cons_of_mem _ (hkeep q hq' hqx)

/-- C4: when a payment with the given id exists (payment ids being
unique), deleting it answers success, removes exactly that one payment
row, and sets the owning tenant's amount_paid to the old value minus
the payment's amount floored at zero, leaving other tenants unchanged;
when no such payment exists the handler answers 404 and the state is
unchanged. -/
theorem c4_delete_payment (db : DB) (pid : String)
    (hnodup : (db.payments.map Payment.id).Nodup) :
    ((∀ q ∈ db.payments, q.id ≠ pid) → deletePaymentRun db pid = (db, false)) ∧
    (∀ p, db.payments.find? (fun q => q.id == pid) = some p →
      (deletePaymentRun db pid).2 = true ∧
      (deletePaymentRun db pid).1.payments.length + 1 = db.payments.length ∧
      p ∉ (deletePaymentRun db pid).1.payments ∧
      (∀ q ∈ db.payments, q ≠ p → q ∈ (deletePaymentRun db pid).1.payments) ∧
      (deletePaymentRun db pid).1.tenants.length = db.tenants.length ∧
      (∀ t ∈ db.tenants, t.id = p.tenant_id →
        { t with amount_paid := max 0 (t.amount_paid - p.amount) } ∈
          (deletePaymentRun db pid).1.tenants) ∧
      (∀ t ∈ db.tenants, t.id ≠ p.tenant_id →
        t ∈ (deletePaymentRun db pid).1.tenants)) := by
  constructor
  · intro hnone
    have hfind : db.payments.find? (fun q => q.id == pid) = none := by
      rw [List.find?_eq_none]
      intro q hq
      simp [hnone q hq]
    simp [deletePaymentRun, hfind]
  · intro p hfind
    have hp_mem : p ∈ db.payments := List.mem_of_find?_eq_some hfind
    have hp_id : p.id = pid := by
      have := List.find?_some hfind
      simpa using this
    obtain ⟨hlen, hnotin, hkeep⟩ :=
      filter_out_unique_key Payment.id pid db.payments p hnodup hp_mem hp_id
    simp only [deletePaymentRun, hfind]
    refine ⟨by trivial, hlen, hnotin, hkeep, by simp, ?_, ?_⟩
    · intro t ht hid
      simp only [List.mem_map]
      exact ⟨t, ht, by simp [hid]⟩
    · intro t ht hid
      simp only [List.mem_map]
      exact ⟨t, ht, by simp [hid]⟩

/-- Witness for C4: deleting the sole payment of 30 for a tenant who
has paid 100 leaves the tenant with 70 and an empty payments table. -/
theorem c4_delete_payment_witness :
    (deletePaymentRun
      { tenants := [{ id := "t1", tenant_name := "T", rent_per_annum := 200000,
                      amount_paid := 100 }],
        payments := [{ id := "p1", tenant_id := "t1", amount := 30,
                       payment_date := "2026-01-01", payment_method := "cash",
                       receipt_number := "RCP-2026-0001",
                       recorded_by := "u1" }] } "p1").2 = true ∧
    ({ id := "t1", tenant_name := "T", rent_per_annum := 200000,
       amount_paid := max 0 (100 - 30) } : Tenant) ∈
      (deletePaymentRun
        { tenants := [{ id := "t1", tenant_name := "T", rent_per_annum := 200000,
                        amount_paid := 100 }],
          payments := [{ id := "p1", tenant_id := "t1", amount := 30,
                         payment_date := "2026-01-01", payment_method := "cash",
                         receipt_number := "RCP-2026-0001",
                         recorded_by := "u1" }] } "p1").1.tenants := by
  have h := (c4_delete_payment
    { tenants := [{ id := "t1", tenant_name := "T", rent_per_annum := 200000,
                    amount_paid := 100 }],
      payments := [{ id := "p1", tenant_id := "t1", amount := 30,
                     payment_date := "2026-01-01", payment_method := "cash",
                     receipt_number := "RCP-2026-0001",
                     recorded_by := "u1" }] } "p1" (by simp)).2
    { id := "p1", tenant_id := "t1", amount := 30,
      payment_date := "2026-01-01", payment_method := "cash",
      receipt_number := "RCP-2026-0001", recorded_by := "u1" } rfl
  exact ⟨h.1, h.2.2.2.2.2.1
    { id := "t1", tenant_name := "T", rent_per_annum := 200000,
      amount_paid := 100 } (by simp) rfl⟩

/-- C6 is refuted as stated: a request with a present tenant_id and the
negative (hence non-positive) amount -5 passes the validation gate
`if (!tenant_id || !amount)` instead of being rejected with 400. -/
theorem c6_counterexample :
    validatePayment { tenant_id := some "t-001",
                      amount := some (JVal.num (-5)) } = true ∧
    (postPayment
      { tenants := [{ id := "t-001", tenant_name := "T", amount_paid := 0 }],
        payments := [] }
      "p1" { tenant_id := some "t-001", amount := some (JVal.num (-5)) }
      "2026-10-11" "u1" 2026).isSome = true ∧
    ¬ (0 < (-5 : ℚ)) := by
  refine ⟨by decide, by decide, by norm_num⟩

/-- C6 (amended): a record-payment request is rejected with 400 iff
tenant_id is absent or empty or amount is absent or JavaScript-falsy
(0, null, or ""); any request with a non-empty tenant_id and a nonzero
numeric amount — in particular any positive amount — passes
validation, with payment_date defaulting to today and payment_method
to cash when omitted. -/
theorem c6_validation (db : DB) (pid : String) (b : PaymentBody)
    (today recorder : String) (year : ℕ) :
    (postPayment db pid b today recorder year = none ↔
      (strTruthy b.tenant_id = false ∨ optTruthy b.amount = false)) ∧
    (∀ (tid : String) (a : ℚ), b.tenant_id = some tid → tid ≠ "" →
      b.amount = some (.num a) → a ≠ 0 →
      postPayment db pid b today recorder year ≠ none ∧
      ((postPayment db pid b today recorder year).getD
          { tenants := [], payments := [] }).payments.head?.map
        Payment.payment_date = some (strOr b.payment_date today) ∧
      ((postPayment db pid b today recorder year).getD
          { tenants := [], payments := [] }).payments.head?.map
        Payment.payment_method = some (strOr b.payment_method "cash") ∧
      (b.payment_date = none → strOr b.payment_date today = today) ∧
      (b.payment_method = none → strOr b.payment_method "cash" = "cash")) := by
  constructor
  · cases ht : strTruthy b.tenant_id <;> cases ha : optTruthy b.amount <;>
      simp [postPayment, validatePayment, ht, ha]
  · intro tid a htid hne hamt hnz
    have hv : validatePayment b = true := by
      simp [validatePayment, strTruthy, optTruthy, htid, hamt, JVal.truthy, hne, hnz]
    refine ⟨by simp [postPayment, hv], by simp [postPayment, hv],
      by simp [postPayment, hv], ?_, ?_⟩
    · intro h
      simp [strOr, h]
    · intro h
      simp [strOr, h]

/-- Witness for C6 (amended): a request for tenant t1 with amount 50000
and no payment_date or payment_method is accepted and defaults them. -/
theorem c6_validation_witness :
    postPayment { tenants := [], payments := [] } "p1"
      { tenant_id := some "t1", amount := some (.num 50000) }
      "2026-10-11" "u1" 2026 ≠ none ∧
    ((postPayment { tenants := [], payments := [] } "p1"
        { tenant_id := some "t1", amount := some (.num 50000) }
        "2026-10-11" "u1" 2026).getD
      { tenants := [], payments := [] }).payments.head?.map
        Payment.payment_method = some (strOr none "cash") := by
  have h := (c6_validation { tenants := [], payments := [] } "p1"
    { tenant_id := some "t1", amount := some (.num 50000) }
    "2026-10-11" "u1" 2026).2 "t1" 50000 rfl (by decide) rfl (by norm_num)
  exact ⟨h.1, h.2.2.1⟩

/-- C7 is refuted as stated: toggling to true a tenant that already has
quit_notice = true restamps quit_notice_date to the current date (here
from 2026-10-10 to 2026-10-11), so the date does change without a
false-to-true transition. -/
theorem c7_counterexample :
    (patchQuitNotice
      [{ id := "t1", tenant_name := "T", quit_notice := true,
         quit_notice_date := some "2026-10-10" }] "t1" true "2026-10-11").map
      Tenant.quit_notice_date = [some "2026-10-11"] ∧
    (some "2026-10-11" ≠ some "2026-10-10") := by
  refine ⟨by decide, by decide⟩

/-- C7 (amended): via the dedicated toggle, quit_notice is set to the
requested flag; quit_notice_date is set to the current date whenever
the requested flag is true — even when the tenant is already in the
requested state, restamping the date — and cleared to null whenever
the requested flag is false; other tenants are unchanged. -/
theorem c7_quit_toggle (ts : List Tenant) (tid today : String) (quit : Bool) :
    (∀ t ∈ ts, t.id = tid →
      { t with quit_notice := quit,
               quit_notice_date := if quit then some today else none } ∈
        patchQuitNotice ts tid quit today) ∧
    (∀ t ∈ ts, t.id ≠ tid → t ∈ patchQuitNotice ts tid quit today) ∧
    (patchQuitNotice ts tid quit today).length = ts.length := by
  refine ⟨?_, ?_, by simp [patchQuitNotice]⟩
  · intro t ht hid
    simp only [patchQuitNotice, List.mem_map]
    exact ⟨t, ht, by simp [hid]⟩
  · intro t ht hid
    simp only [patchQuitNotice, List.mem_map]
    exact ⟨t, ht, by simp [hid]⟩

/-- Witness for C7 (amended): restamping an already-noticed tenant. -/
theorem c7_quit_toggle_witness :
    ({ id := "t1", tenant_name := "T", quit_notice := true,
       quit_notice_date := if true then some "2026-10-11" else none } : Tenant) ∈
      patchQuitNotice
        [{ id := "t1", tenant_name := "T", quit_notice := true,
           quit_notice_date := some "2026-10-10" }] "t1" true "2026-10-11" := by
  exact (c7_quit_toggle _ "t1" "2026-10-11" true).1
    { id := "t1", tenant_name := "T", quit_notice := true,
      quit_notice_date := some "2026-10-10" } (by simp) rfl

/-- C10: after a payment-only patch on an existing tenant, the stored
amount_paid equals the supplied value when it is a nonzero number, and
0 when the field is omitted or any falsy value (0, null, ""); other
tenants are untouched. -/
theorem c10_payment_patch (ts : List Tenant) (tid : String) (v : Option JVal) :
    (∀ q : ℚ, v = some (.num q) → q ≠ 0 →
      ∀ t ∈ ts, t.id = tid →
        { t with amount_paid := q } ∈ patchTenantPayment ts tid v) ∧
    ((v = none ∨ v = some (.num 0) ∨ v = some .null ∨ v = some (.str "")) →
      ∀ t ∈ ts, t.id = tid →
        { t with amount_paid := 0 } ∈ patchTenantPayment ts tid v) ∧
    (∀ t ∈ ts, t.id ≠ tid → t ∈ patchTenantPayment ts tid v) ∧
    (patchTenantPayment ts tid v).length = ts.length := by
  refine ⟨?_, ?_, ?_, by simp [patchTenantPayment]⟩
  · intro q hv hq t ht hid
    simp only [patchTenantPayment, List.mem_map]
    exact ⟨t, ht, by simp [hid, hv, jvalOrZero]⟩
  · intro hv t ht hid
    simp only [patchTenantPayment, List.mem_map]
    refine ⟨t, ht, ?_⟩
    rcases hv with h | h | h | h <;> simp [hid, h, jvalOrZero]
  · intro t ht hid
    simp only [patchTenantPayment, List.mem_map]
    exact ⟨t, ht, by simp [hid]⟩

/-- Witness for C10: patching amount_paid to 75000 stores exactly
75000. -/
theorem c10_payment_patch_witness :
    ({ id := "t1", tenant_name := "T", amount_paid := 75000 } : Tenant) ∈
      patchTenantPayment [{ id := "t1", tenant_name := "T", amount_paid := 100 }]
        "t1" (some (.num 75000)) := by
  exact (c10_payment_patch _ "t1" _).1 75000 rfl (by norm_num)
    { id := "t1", tenant_name := "T", amount_paid := 100 } (by simp) rfl

/-- C8: CSV header resolution tries each field's synonym list in
priority order with the first non-empty match winning (headers matched
after lower-casing and stripping spaces/underscores); rows without a
resolvable name are skipped without aborting the batch; numeric fields
are stripped of non-digit/non-decimal-point characters before parsing
and default to zero on failure; and the example row imports as tenant
"Jane Doe" with rent_per_annum 150000 and all other optional fields
empty/zero. -/
theorem c8_csv_import :
    (∀ (row : List (String × String)) (k : String) (ks : List String)
        (v : String), rowLookup row k = some v → v ≠ "" →
      resolveField row (k :: ks) = v) ∧
    (∀ (row : List (String × String)) (k : String) (ks : List String),
      rowLookup row k = none ∨ rowLookup row k = some "" →
      resolveField row (k :: ks) = resolveField row ks) ∧
    (∀ (row : List (String × String)) (id recorder : String),
      resolveField row ["nameoftenant", "tenant", "name"] = "" →
      importRow row id recorder = none) ∧
    (∀ (row : List (String × String)) (rest : List (List (String × String)))
        (id : String) (ids : List String) (recorder : String),
      resolveField row ["nameoftenant", "tenant", "name"] = "" →
      importRows (row :: rest) (id :: ids) recorder =
        importRows rest ids recorder) ∧
    (∀ s : String, parseFloatQ (keepDigitsDot s) = none → numField s = 0) ∧
    (∀ (s : String) (q : ℚ), parseFloatQ (keepDigitsDot s) = some q →
      numField s = q) ∧
    (importRow [("Name of Tenant", "Jane Doe"), ("Rent Per Annum", "₦150,000")]
        "id1" "u1" =
      some { id := "id1", tenant_name := "Jane Doe", rent_per_annum := 150000,
             created_by := "u1" }) := by
  refine ⟨?_, ?_, ?_, ?_, ?_, ?_, ?_⟩
  · intro row k ks v hl hv
    simp [resolveField, hl, hv]
  · intro row k ks h
    rcases h with h | h <;> simp [resolveField, h]
  · intro row id recorder h
    simp [importRow, h]
  · intro row rest id ids recorder h
    have hnone : importRow row id "u" = none := by simp [importRow, h]
    simp [importRows, List.zip, importRow, h]
  · intro s h
    simp [numField, h]
  · intro s q h
    simp [numField, h]
  · decide

/-- Witness for C8: the highest-priority name synonym resolves the
"Name of Tenant" header to "Jane Doe". -/
theorem c8_csv_import_witness :
    resolveField [("Name of Tenant", "Jane Doe")]
      ["nameoftenant", "tenant", "name"] = "Jane Doe" := by
  exact c8_csv_import.1 [("Name of Tenant", "Jane Doe")] "nameoftenant"
    ["tenant", "name"] "Jane Doe" (by decide) (by decide)

/-- C9: a login attempt against an account that exists but is disabled
yields exactly the same observable response — status 401, error
"Invalid credentials", no user — as an attempt against an active
account with a wrong password; the two outcomes are equal, hence
indistinguishable to the caller. -/
theorem c9_login_indistinguishable
    (users1 users2 : List User) (chk1 chk2 : String → String → Bool)
    (email1 pw1 email2 pw2 : String)
    (he1 : email1 ≠ "") (hp1 : pw1 ≠ "")
    (he2 : email2 ≠ "") (hp2 : pw2 ≠ "")
    (hdisabled : ∀ u ∈ users1, u.email = email1 → u.is_active = false)
    (u2 : User)
    (hfind2 : users2.find? (fun v => v.email == email2 && v.is_active) = some u2)
    (hwrong : chk2 pw2 u2.password_hash = false) :
    login users1 chk1 email1 pw1 = login users2 chk2 email2 pw2 ∧
    login users1 chk1 email1 pw1 =
      { status := 401, error := some "Invalid credentials", userId := none } := by
  have hfind1 : users1.find? (fun v => v.email == email1 && v.is_active) = none := by
    rw [List.find?_eq_none]
    intro u hu hc
    rw [Bool.and_eq_true, beq_iff_eq] at hc
    rw [hdisabled u hu hc.1] at hc
    exact Bool.false_ne_true hc.2
  have h1 : login users1 chk1 email1 pw1 =
      { status := 401, error := some "Invalid credentials", userId := none } := by
    simp [login, he1, hp1, hfind1]
  have h2 : login users2 chk2 email2 pw2 =
      { status := 401, error := some "Invalid credentials", userId := none } := by
    simp [login, he2, hp2, hfind2, hwrong]
  exact ⟨h1.trans h2.symm, h1⟩

/-- Witness for C9: a disabled account and an active account with a
failing password check produce identical responses. -/
theorem c9_login_indistinguishable_witness :
    login [{ id := "u1", name := "A", email := "a@x.com", password_hash := "h1",
             is_active := false }] (fun _ _ => true) "a@x.com" "pw" =
    login [{ id := "u2", name := "B", email := "b@x.com", password_hash := "h2",
             is_active := true }] (fun _ _ => false) "b@x.com" "pw" := by
  exact (c9_login_indistinguishable
    [{ id := "u1", name := "A", email := "a@x.com", password_hash := "h1",
       is_active := false }]
    [{ id := "u2", name := "B", email := "b@x.com", password_hash := "h2",
       is_active := true }]
    (fun _ _ => true) (fun _ _ => false) "a@x.com" "pw" "b@x.com" "pw"
    (by decide) (by decide) (by decide) (by decide)
    (by decide)
    { id := "u2", name := "B", email := "b@x.com", password_hash := "h2",
      is_active := true }
    (by decide) rfl).1

end EstateIQ
